import Mathlib

/-!
# Verification of the Raptor guide-camera server (`raptorServ.c`)

A shallow embedding of the parts of `raptorServ.c` that the specification
claims talk about, together with theorems settling each claim.

Modelling conventions:
* C `float`/`double` values are modelled as `ℚ` (the machine arithmetic of
  the program stays far away from rounding boundaries in every claim).
* C `int`/`long` values are modelled as `ℤ`, C `unsigned short` pixels as `ℕ`.
* Images are row-major flat arrays accessed through a pointer in C; they are
  modelled as `ℕ → ℕ` (index to pixel value), and the `arr[i]=image[i]` copy
  that feeds `GetMedian` becomes `imgList`.
* External collaborators (EDT frame grabber, libisu, mpfit, fh) are modelled
  by oracle records carrying their observable results.
-/

namespace RaptorServ

/-! ## Centroid engine (`GetMedian`, `calculateCentroid`, lines 500-720) -/

/-- Insert a value into a sorted list (helper for the order statistic). -/
def insertSorted (x : ℕ) : List ℕ → List ℕ
  | [] => [x]
  | y :: ys => if x ≤ y then x :: y :: ys else y :: insertSorted x ys

/-- Sort a list of naturals (insertion sort). -/
def sortNat (l : List ℕ) : List ℕ := l.foldr insertSorted []

/-- `GetMedian` (line 500): the Numerical Recipes quickselect over a copy of
the image.  With `low = 0`, `high = n-1` the routine returns the element that
ends up at position `median = (n-1)/2` of the sorted order, i.e. the
`(n-1)/2`-th order statistic, which is what we take as the definition. -/
def GetMedian (l : List ℕ) : ℕ := (sortNat l).getD ((l.length - 1) / 2) 0

/-- The `for (i=0;i<columns*rows;i++) arr[i]=image[i]` copy feeding the
median computation. -/
def imgList (img : ℕ → ℕ) (n : ℕ) : List ℕ := (List.range n).map img

/-- `calculateCentroid` (line 555).  The C code copies the image into a
`double` array, takes `GetMedian`, then loops `i` over rows and `j` over
columns accumulating `xc += j*val`, `yc += i*val`, `sum += val` for
`val = image[i*columns+j] - median` (an `int`, but the median is always an
array element, hence integral) whenever `val > 0`; finally it divides, or
falls back to the geometric centre `(columns/2.0, rows/2.0)`. -/
def calculateCentroid (img : ℕ → ℕ) (columns rows : ℕ) : ℚ × ℚ :=
  let median := GetMedian (imgList img (columns * rows))
  let acc : ℚ × ℚ × ℚ :=
    (List.range rows).foldl (fun a i =>
      (List.range columns).foldl (fun a j =>
        let val : ℤ := (img (i * columns + j) : ℤ) - (median : ℤ)
        if 0 < val then
          (a.1 + (j : ℚ) * (val : ℚ), a.2.1 + (i : ℚ) * (val : ℚ), a.2.2 + (val : ℚ))
        else a) a)
      ((0 : ℚ), (0 : ℚ), (0 : ℚ))
  if 0 < acc.2.2 then (acc.1 / acc.2.2, acc.2.1 / acc.2.2)
  else ((columns : ℚ) / 2, (rows : ℚ) / 2)

/-- Median-subtracted, clamped pixel value `v(i,j)` of the claim. -/
def clampedVal (img : ℕ → ℕ) (columns : ℕ) (m : ℕ) (i j : ℕ) : ℚ :=
  max (((img (i * columns + j) : ℤ) - (m : ℤ) : ℤ) : ℚ) 0

/-- Auxiliary fold identity: a fold that accumulates three running sums
componentwise equals the starting value plus the three finite sums. -/
theorem foldl_triple_sum (F G H : ℕ → ℚ) :
    ∀ (n : ℕ) (a : ℚ × ℚ × ℚ),
      (List.range n).foldl (fun a k => (a.1 + F k, a.2.1 + G k, a.2.2 + H k)) a
        = (a.1 + ∑ k ∈ Finset.range n, F k,
           a.2.1 + ∑ k ∈ Finset.range n, G k,
           a.2.2 + ∑ k ∈ Finset.range n, H k) := by
  intro n
  induction n with
  | zero => intro a; simp
  | succ n ih =>
      intro a
      rw [List.range_succ, List.foldl_append, ih]
      simp only [List.foldl_cons, List.foldl_nil, Finset.sum_range_succ, Prod.mk.injEq]
      refine ⟨by ring, by ring, by ring⟩

theorem centroid_body_eq (img : ℕ → ℕ) (columns : ℕ) (m : ℕ) (i : ℕ) :
    (fun (a : ℚ × ℚ × ℚ) (j : ℕ) =>
        let val : ℤ := (img (i * columns + j) : ℤ) - (m : ℤ)
        if 0 < val then
          (a.1 + (j : ℚ) * (val : ℚ), a.2.1 + (i : ℚ) * (val : ℚ), a.2.2 + (val : ℚ))
        else a)
      = (fun (a : ℚ × ℚ × ℚ) (j : ℕ) =>
          (a.1 + (j : ℚ) * clampedVal img columns m i j,
           a.2.1 + (i : ℚ) * clampedVal img columns m i j,
           a.2.2 + clampedVal img columns m i j)) := by
  funext a j
  by_cases h : (0 : ℤ) < (img (i * columns + j) : ℤ) - (m : ℤ)
  · have hmax : clampedVal img columns m i j
        = (((img (i * columns + j) : ℤ) - (m : ℤ) : ℤ) : ℚ) := by
      unfold clampedVal
      rw [max_eq_left]
      exact_mod_cast h.le
    simp only [h, if_pos, hmax]
  · have hmax : clampedVal img columns m i j = 0 := by
      unfold clampedVal
      rw [max_eq_right]
      exact_mod_cast (not_lt.mp h)
    rw [if_neg h, hmax]
    simp

theorem calculateCentroid_eq_moments (img : ℕ → ℕ) (columns rows : ℕ) :
    calculateCentroid img columns rows =
      (let m := GetMedian (imgList img (columns * rows))
       let S := ∑ i ∈ Finset.range rows, ∑ j ∈ Finset.range columns,
                  clampedVal img columns m i j
       if 0 < S then
         ((∑ i ∈ Finset.range rows, ∑ j ∈ Finset.range columns,
             (j : ℚ) * clampedVal img columns m i j) / S,
          (∑ i ∈ Finset.range rows, ∑ j ∈ Finset.range columns,
             (i : ℚ) * clampedVal img columns m i j) / S)
       else ((columns : ℚ) / 2, (rows : ℚ) / 2)) := by
  unfold calculateCentroid
  have hinner : ∀ (i : ℕ) (a : ℚ × ℚ × ℚ),
      (List.range columns).foldl (fun a j =>
        let val : ℤ := (img (i * columns + j) : ℤ) - ((GetMedian (imgList img (columns * rows)) : ℕ) : ℤ)
        if 0 < val then
          (a.1 + (j : ℚ) * (val : ℚ), a.2.1 + (i : ℚ) * (val : ℚ), a.2.2 + (val : ℚ))
        else a) a
      = (a.1 + ∑ j ∈ Finset.range columns, (j : ℚ) * clampedVal img columns (GetMedian (imgList img (columns * rows))) i j,
         a.2.1 + ∑ j ∈ Finset.range columns, (i : ℚ) * clampedVal img columns (GetMedian (imgList img (columns * rows))) i j,
         a.2.2 + ∑ j ∈ Finset.range columns, clampedVal img columns (GetMedian (imgList img (columns * rows))) i j) := by
    intro i a
    rw [centroid_body_eq img columns (GetMedian (imgList img (columns * rows))) i]
    exact foldl_triple_sum _ _ _ columns a
  have houter :
      (List.range rows).foldl (fun a i =>
        (List.range columns).foldl (fun a j =>
          let val : ℤ := (img (i * columns + j) : ℤ) - ((GetMedian (imgList img (columns * rows)) : ℕ) : ℤ)
          if 0 < val then
            (a.1 + (j : ℚ) * (val : ℚ), a.2.1 + (i : ℚ) * (val : ℚ), a.2.2 + (val : ℚ))
          else a) a)
        ((0 : ℚ), (0 : ℚ), (0 : ℚ))
      = (∑ i ∈ Finset.range rows, ∑ j ∈ Finset.range columns,
           (j : ℚ) * clampedVal img columns (GetMedian (imgList img (columns * rows))) i j,
         ∑ i ∈ Finset.range rows, ∑ j ∈ Finset.range columns,
           (i : ℚ) * clampedVal img columns (GetMedian (imgList img (columns * rows))) i j,
         ∑ i ∈ Finset.range rows, ∑ j ∈ Finset.range columns,
           clampedVal img columns (GetMedian (imgList img (columns * rows))) i j) := by
    have hbody : (fun (a : ℚ × ℚ × ℚ) (i : ℕ) =>
        (List.range columns).foldl (fun a j =>
          let val : ℤ := (img (i * columns + j) : ℤ) - ((GetMedian (imgList img (columns * rows)) : ℕ) : ℤ)
          if 0 < val then
            (a.1 + (j : ℚ) * (val : ℚ), a.2.1 + (i : ℚ) * (val : ℚ), a.2.2 + (val : ℚ))
          else a) a)
        = (fun (a : ℚ × ℚ × ℚ) (i : ℕ) =>
            (a.1 + ∑ j ∈ Finset.range columns, (j : ℚ) * clampedVal img columns (GetMedian (imgList img (columns * rows))) i j,
             a.2.1 + ∑ j ∈ Finset.range columns, (i : ℚ) * clampedVal img columns (GetMedian (imgList img (columns * rows))) i j,
             a.2.2 + ∑ j ∈ Finset.range columns, clampedVal img columns (GetMedian (imgList img (columns * rows))) i j)) := by
      funext a i
      exact hinner i a
    rw [hbody, foldl_triple_sum _ _ _ rows]
    simp
  simp only [houter]

/-! ## Gaussian-fit sub-subraster extraction
(`calculateCentroidMPFIT` lines 603-720, `calculatePointFWHM` lines 725-833;
the cut-out code of the two functions is line-for-line identical). -/

/-- C conversion of a `float` to `int`: truncation toward zero. -/
def cTrunc (q : ℚ) : ℤ := if 0 ≤ q then ⌊q⌋ else -⌊-q⌋

/-- The `fpix`/`lpix` window computed from the centre-of-mass seed
`(xest, yest)`: `fpix = (int)(est - GUIDE_SIZE/4)`,
`lpix = (int)(est + GUIDE_SIZE/4 - 1)`, followed by the source's four clamp
tests (note the source tests `est - 8 > 32`, not `est + 7 > 31`, before
clamping `lpix` to 32). -/
def mpfitWindow (xest yest : ℚ) : (ℤ × ℤ) × (ℤ × ℤ) :=
  let fpix0 : ℤ := cTrunc (xest - 32 / 4)
  let fpix1 : ℤ := cTrunc (yest - 32 / 4)
  let lpix0 : ℤ := cTrunc (xest + 32 / 4 - 1)
  let lpix1 : ℤ := cTrunc (yest + 32 / 4 - 1)
  let fpix0 := if xest - 32 / 4 < 0 then 0 else fpix0
  let fpix1 := if yest - 32 / 4 < 0 then 0 else fpix1
  let lpix0 := if xest - 32 / 4 > 32 then 32 else lpix0
  let lpix1 := if yest - 32 / 4 > 32 then 32 else lpix1
  ((fpix0, fpix1), (lpix0, lpix1))

/-- The `(i, j)` index pairs read by the copy loop
`for (i=fpix[0];i<fpix[0]+subx;i++) for (j=fpix[1];j<fpix[1]+suby;j++)
subimage[k]=image[j*columns+i]` with `subx = lpix[0]-fpix[0]+1`,
`suby = lpix[1]-fpix[1]+1`. -/
def mpfitAccesses (img : ℕ → ℕ) : List (ℤ × ℤ) :=
  let est := calculateCentroid img 32 32
  let w := mpfitWindow est.1 est.2
  let subx := (w.2.1 - w.1.1 + 1).toNat
  let suby := (w.2.2 - w.1.2 + 1).toNat
  (List.range subx).flatMap (fun di =>
    (List.range suby).map (fun dj => (w.1.1 + di, w.1.2 + dj)))

/-- Every copy-loop read `image[j*columns+i]` stays inside the 32×32
subraster, i.e. `0 ≤ i < 32` and `0 ≤ j < 32`. -/
def mpfitAccessesOk (img : ℕ → ℕ) : Bool :=
  (mpfitAccesses img).all (fun p =>
    0 ≤ p.1 && p.1 < 32 && 0 ≤ p.2 && p.2 < 32)

/-- `calculateCentroidMPFIT` (line 603).  The Levenberg–Marquardt fit itself
is performed by the external `mpfit` library; its resulting first two
parameters are supplied as `pfit`.  The function returns
`fpix + pfit` per axis, falling back to the centre-of-mass seed whenever that
sum is negative. -/
def calculateCentroidMPFIT (img : ℕ → ℕ) (pfit : ℚ × ℚ) : ℚ × ℚ :=
  let est := calculateCentroid img 32 32
  let w := mpfitWindow est.1 est.2
  let yc := if (w.1.2 : ℚ) + pfit.2 < 0 then est.2 else (w.1.2 : ℚ) + pfit.2
  let xc := if (w.1.1 : ℚ) + pfit.1 < 0 then est.1 else (w.1.1 : ℚ) + pfit.1
  (xc, yc)

/-! ## Frame-rate codec (`setGuiderFrameRate` line 1523,
`getGuiderFrameRate` line 1668) -/

/-- The 32-bit count written to registers `DD..E0` by `setGuiderFrameRate`:
the C expression is `(unsigned long)(40e8/(unsigned long)(count*100))`, i.e.
the rate times 100 is truncated to an integer *before* the division, and the
quotient is truncated again. -/
def frEncodeCount (r : ℚ) : ℤ := ⌊(4000000000 : ℚ) / ((⌊r * 100⌋ : ℤ) : ℚ)⌋

/-- The four data bytes extracted from `sprintf(hexstring, "%08lx", n)` as
consecutive 2-hex-digit substrings: the base-256 digits of `n`, most
significant first (for `n < 2^32`). -/
def frBytes (n : ℕ) : List ℕ :=
  [n / 2 ^ 24 % 256, n / 2 ^ 16 % 256, n / 2 ^ 8 % 256, n % 256]

/-- `getGuiderFrameRate` (line 1668) reads registers `DD..E0`, concatenates
the four hex tokens most significant first and decodes
`count = 40e6 / value`, with `value = 0` decoding to 0. -/
def frDecode (value : ℕ) : ℚ :=
  if value = 0 then 0 else (40000000 : ℚ) / (value : ℚ)

/-- Reassembling the four register bytes, most significant first, as done by
the string concatenation in `getGuiderFrameRate`. -/
def frReassemble (bs : List ℕ) : ℕ :=
  bs.foldl (fun acc b => acc * 256 + b) 0

/-! ## Constants (lines 96-140) -/

def SIZE_X : ℤ := 640
def SIZE_Y : ℤ := 512
def GUIDE_SIZE_X : ℤ := 32
def GUIDE_SIZE_Y : ℤ := 32
def USER_TIMEOUT : ℚ := 20000
def MAX_SAVE_COUNT : ℤ := 1000000
def DEFAULT_FRAME_RATE : ℚ := 50
def PIXSCALE : ℚ := 128 / 1000

/-- The fh library's null sentinel for real-valued headers.  Its exact value
never matters to any claim; the code only stores and emits it. -/
def fh_fits_real_null : ℚ := -9999

/-! ## Configuration loader (`loadGuiderConfiguration`, lines 3610-3742)

The line-by-line text parsing (`fgets`, `strchr`, `strtol`, `strtof`) is
abstracted: a configuration file is a list of already-parsed lines, each
either one of the four known keys with its numeric value or an unknown key
(which the source only warns about). -/

inductive ConfLine where
  | rasterX0 (v : ℤ)
  | rasterY0 (v : ℤ)
  | nullX (v : ℚ)
  | nullY (v : ℚ)
  | unknown
  deriving DecidableEq

structure GuiderConf where
  guide_x0 : ℤ
  guide_y0 : ℤ
  null_x : ℚ
  null_y : ℚ
  deriving DecidableEq

/-- Per-line processing: each recognised key stores its value and then range
checks it, returning `FAIL` (`none`) when out of range.  The `holeNullY`
check compares against `SIZE_X` in the source (line 3713), not `SIZE_Y`. -/
def loadLoop : GuiderConf → List ConfLine → Option GuiderConf
  | c, [] => some c
  | c, ConfLine.rasterX0 v :: rest =>
      if v < 0 ∨ v > SIZE_X - GUIDE_SIZE_X then none
      else loadLoop { c with guide_x0 := v } rest
  | c, ConfLine.rasterY0 v :: rest =>
      if v < 0 ∨ v > SIZE_Y - GUIDE_SIZE_Y then none
      else loadLoop { c with guide_y0 := v } rest
  | c, ConfLine.nullX v :: rest =>
      if v < 0 ∨ v > (SIZE_X : ℚ) then none
      else loadLoop { c with null_x := v } rest
  | c, ConfLine.nullY v :: rest =>
      if v < 0 ∨ v > (SIZE_X : ℚ) then none
      else loadLoop { c with null_y := v } rest
  | c, ConfLine.unknown :: rest => loadLoop c rest

/-- `loadGuiderConfiguration`: fields default to the invalid value `-1`, the
lines are processed in order, and at the end all four fields must have been
updated. -/
def loadGuiderConfiguration (ls : List ConfLine) : Option GuiderConf :=
  match loadLoop ⟨-1, -1, -1, -1⟩ ls with
  | none => none
  | some c =>
      if c.guide_x0 = -1 ∨ c.guide_y0 = -1 ∨ c.null_x = -1 ∨ c.null_y = -1
      then none else some c

/-! ## Server state (`server_info_t`, lines 182-222)

The opaque device handles (`dd_p`, `edt_p`, `pdv_p`) are replaced by the
observable camera-side state they control: the stored ROI rectangle and its
enable flag, mutated by `pdv_set_roi` / `pdv_enable_roi` and read back by
`pdv_get_width` / `pdv_get_height`. -/

structure ServState where
  serv_done : Bool
  frame_rate : ℚ
  exposure_time : ℚ
  tec_setpoint : ℚ
  temp : ℚ
  image_width : ℤ
  image_height : ℤ
  win_x0 : ℤ
  win_y0 : ℤ
  guide_x0 : ℤ
  guide_y0 : ℤ
  null_x : ℚ
  null_y : ℚ
  guide_xoff : ℚ
  guide_yoff : ℚ
  video_on : Bool
  isu_on : Bool
  isu_mrad_x_delta_setup : ℚ
  isu_mrad_y_delta_setup : ℚ
  isu_mrad_x_status : ℚ
  isu_mrad_y_status : ℚ
  exp_on : Bool
  filename : String
  ra : String
  dec : String
  equinox : ℚ
  objmag : ℚ
  guide_on : Bool
  fits_comment : String
  first_done_flag : ℤ
  fwhm_x : ℚ
  fwhm_y : ℚ
  frame_sequence : ℤ
  frame_save_count : ℤ
  cam_roi_x0 : ℤ
  cam_roi_w : ℤ
  cam_roi_y0 : ℤ
  cam_roi_h : ℤ
  cam_roi_enabled : Bool
  deriving DecidableEq

/-- The process state after `main`'s initialisation (lines 3814-4116):
`memset` to zero, configuration loaded, then the TEC setpoint, exposure time
and frame rate defaults stored. -/
def initState (conf : GuiderConf) : ServState where
  serv_done := false
  frame_rate := 50
  exposure_time := 10
  tec_setpoint := -40
  temp := 0
  image_width := 0
  image_height := 0
  win_x0 := 0
  win_y0 := 0
  guide_x0 := conf.guide_x0
  guide_y0 := conf.guide_y0
  null_x := conf.null_x
  null_y := conf.null_y
  guide_xoff := 0
  guide_yoff := 0
  video_on := false
  isu_on := false
  isu_mrad_x_delta_setup := 0
  isu_mrad_y_delta_setup := 0
  isu_mrad_x_status := 0
  isu_mrad_y_status := 0
  exp_on := false
  filename := ""
  ra := ""
  dec := ""
  equinox := 0
  objmag := 0
  guide_on := false
  fits_comment := ""
  first_done_flag := 0
  fwhm_x := 0
  fwhm_y := 0
  frame_sequence := 0
  frame_save_count := 0
  cam_roi_x0 := 0
  cam_roi_w := 0
  cam_roi_y0 := 0
  cam_roi_h := 0
  cam_roi_enabled := false

/-- Success/failure outcomes of the external calls (EDT frame grabber,
camera serial link, libisu), plus the values those calls return. -/
structure Hw where
  openOk : Bool
  multibufOk : Bool
  timeoutOk : Bool
  setRoiOk : Bool
  enableRoiOk : Bool
  serialOk : Bool
  anglesOk : Bool
  spawnOk : Bool
  isuCheckOk : Bool
  isuHomed : Bool
  isuEnableOk : Bool
  isuStopOk : Bool
  angles : ℚ × ℚ
  frReadback : ℚ
  deriving DecidableEq

/-- The everything-succeeds oracle. -/
def hwOK : Hw where
  openOk := true
  multibufOk := true
  timeoutOk := true
  setRoiOk := true
  enableRoiOk := true
  serialOk := true
  anglesOk := true
  spawnOk := true
  isuCheckOk := true
  isuHomed := true
  isuEnableOk := true
  isuStopOk := true
  angles := (0, 0)
  frReadback := 50

/-- A reply line `sprintf(buffer, "%c ...", STATUS_CHAR, ...)`: the leading
status character and the remainder of the line (including its leading
space). -/
structure Reply where
  stat : Char
  rest : String
  deriving DecidableEq

/-- Camera ROI operations issued through the EDT library. -/
inductive CamOp where
  | setRoi (x w y h : ℤ)
  | enableRoi (flag : ℤ)
  deriving DecidableEq

/-- Result of dispatching one client request: the new server state, the
reply written back into the buffer (`none` for the quiet disconnect and
`SHUTDOWN` paths, which empty the buffer), the camera-serial messages sent
(as byte lists), and the ROI calls issued. -/
structure StepOut where
  st : ServState
  reply : Option Reply
  writes : List (List ℕ)
  camOps : List CamOp
  deriving DecidableEq

/-! ### Serial traffic of the FRAMERATE handler -/

/-- XOR checksum over a byte list (every framed camera command ends with the
XOR of its preceding bytes). -/
def xorChecksum (bs : List ℕ) : ℕ := bs.foldl Nat.xor 0

/-- A single-byte register write frame `53 e0 02 REG VAL 50 CSUM`. -/
def writeFrame (reg val : ℕ) : List ℕ :=
  [0x53, 0xe0, 0x02, reg, val, 0x50,
   xorChecksum [0x53, 0xe0, 0x02, reg, val, 0x50]]

/-- A single-byte register read frame `53 e0 01 REG 50 CSUM`. -/
def readFrame (reg : ℕ) : List ℕ :=
  [0x53, 0xe0, 0x01, reg, 0x50, xorChecksum [0x53, 0xe0, 0x01, reg, 0x50]]

/-- The fixed read-back frame `53 e1 01 50 e3`. -/
def readReplyFrame : List ℕ := [0x53, 0xe1, 0x01, 0x50, 0xe3]

/-- `checkCameraStatus` (line 1143): get status, then set status `0x4C`. -/
def statusWrites : List (List ℕ) := [[0x49, 0x50, 0x19], [0x4f, 0x53, 0x50, 0x4c]]

/-- The four register writes of `setGuiderFrameRate` for rate `r`
(registers `DD..E0`, bytes of the encoded count, most significant first). -/
def frSetWrites (r : ℚ) : List (List ℕ) :=
  (List.zip [0xdd, 0xde, 0xdf, 0xe0] (frBytes (frEncodeCount r).toNat)).map
    (fun p => writeFrame p.1 p.2)

/-- The read traffic of `getGuiderFrameRate`: each of the four registers is
queried and its one-byte reply fetched. -/
def frGetWrites : List (List ℕ) :=
  [0xdd, 0xde, 0xdf, 0xe0].flatMap (fun reg => [readFrame reg, readReplyFrame])

/-! ## Command dispatcher (`clientReceive`, lines 2690-3579)

Tokenising of the request line (`cli_argv_quoted`, `isInt`, `isFloat`,
`strtol`/`strtod` with their `errno` checks) is abstracted: a `Cmd` carries
the already-parsed arguments.  The handlers below follow the corresponding
`clientReceive` blocks statement by statement. -/

inductive Cmd where
  | video (b : Bool)
  | isu (b : Bool)
  | guide (b : Bool)
  | roi (x y : ℤ)
  | nullPos (x y : ℚ)
  | save (n : ℤ) (comment : String)
  | framerate (r : ℚ)
  | startexp (fn : String) (raArg decArg : Option String) (eqArg magArg : Option ℚ)
  | endexp
  | shutdown
  deriving DecidableEq

/-- The literal command keyword a request line starts with. -/
def cmdName : Cmd → String
  | Cmd.video _ => "VIDEO"
  | Cmd.isu _ => "ISU"
  | Cmd.guide _ => "GUIDE"
  | Cmd.roi _ _ => "ROI"
  | Cmd.nullPos _ _ => "NULL"
  | Cmd.save _ _ => "SAVE"
  | Cmd.framerate _ => "FRAMERATE"
  | Cmd.startexp _ _ _ _ _ => "STARTEXP"
  | Cmd.endexp => "ENDEXP"
  | Cmd.shutdown => "SHUTDOWN"

/-- `GUIDE OFF` handler (line 3291): restore the full raster, disable the
ROI, clear `guide_on` and `first_done_flag`. -/
def guideOffCmd (hw : Hw) (s : ServState) : StepOut :=
  let s1 := { s with win_x0 := 0, win_y0 := 0,
                     image_width := SIZE_X, image_height := SIZE_Y }
  if hw.enableRoiOk = false then
    ⟨s1, some ⟨'!', " GUIDE \"unable to reset image ROI\""⟩, [], [CamOp.enableRoi 0]⟩
  else
    ⟨{ s1 with cam_roi_enabled := false, guide_on := false, first_done_flag := 0 },
     some ⟨'.', " GUIDE OFF"⟩, [], [CamOp.enableRoi 0]⟩

/-- `GUIDE ON` handler (line 3317): switch to the guide raster, program the
camera ROI from `guide_x0`/`guide_y0`, enable it, set `guide_on`. -/
def guideOnCmd (hw : Hw) (s : ServState) : StepOut :=
  let s1 := { s with win_x0 := s.guide_x0, win_y0 := s.guide_y0,
                     image_width := GUIDE_SIZE_X, image_height := GUIDE_SIZE_Y }
  if hw.setRoiOk = false then
    ⟨s1, some ⟨'!', " GUIDE \"unable to set image ROI\""⟩, [],
     [CamOp.setRoi s.guide_x0 GUIDE_SIZE_X s.guide_y0 GUIDE_SIZE_Y]⟩
  else
    let s2 := { s1 with cam_roi_x0 := s.guide_x0, cam_roi_w := GUIDE_SIZE_X,
                        cam_roi_y0 := s.guide_y0, cam_roi_h := GUIDE_SIZE_Y }
    if hw.enableRoiOk = false then
      ⟨s2, some ⟨'!', " GUIDE \"set ROI failed\""⟩, [],
       [CamOp.setRoi s.guide_x0 GUIDE_SIZE_X s.guide_y0 GUIDE_SIZE_Y,
        CamOp.enableRoi 1]⟩
    else
      ⟨{ s2 with cam_roi_enabled := true, guide_on := true },
       some ⟨'.', " GUIDE ON"⟩, [],
       [CamOp.setRoi s.guide_x0 GUIDE_SIZE_X s.guide_y0 GUIDE_SIZE_Y,
        CamOp.enableRoi 1]⟩

/-- `ROI x y` handler (line 3474): range-check, store the new guide raster
origin, and only when already in subraster mode reprogram the camera; the
success reply echoes `NULL_CMD` (line 3567). -/
def roiCmd (hw : Hw) (s : ServState) (x y : ℤ) : StepOut :=
  if x < 0 ∨ x > SIZE_X - GUIDE_SIZE_X ∨ y < 0 ∨ y > SIZE_Y - GUIDE_SIZE_Y then
    ⟨s, some ⟨'!', " \"Invalid ROI command. Arguments are out of range\""⟩, [], []⟩
  else
    let s1 := { s with guide_x0 := x, guide_y0 := y }
    if s1.image_width = GUIDE_SIZE_X ∧ s1.image_width = GUIDE_SIZE_Y then
      if hw.setRoiOk = false then
        ⟨s1, some ⟨'!', " ROI \"unable to set image ROI\""⟩, [],
         [CamOp.setRoi x GUIDE_SIZE_X y GUIDE_SIZE_Y]⟩
      else
        let s2 := { s1 with cam_roi_x0 := x, cam_roi_w := GUIDE_SIZE_X,
                            cam_roi_y0 := y, cam_roi_h := GUIDE_SIZE_Y }
        if hw.enableRoiOk = false then
          ⟨s2, some ⟨'!', " ROI \"set ROI failed\""⟩, [],
           [CamOp.setRoi x GUIDE_SIZE_X y GUIDE_SIZE_Y, CamOp.enableRoi 1]⟩
        else
          ⟨{ s2 with cam_roi_enabled := true }, some ⟨'.', " NULL"⟩, [],
           [CamOp.setRoi x GUIDE_SIZE_X y GUIDE_SIZE_Y, CamOp.enableRoi 1]⟩
    else
      ⟨s1, some ⟨'.', " NULL"⟩, [], []⟩

/-- `FRAMERATE r` handler (line 3007).  On serial failure the remaining
traffic is cut short; the model attributes no set/get frames to a failed
link. -/
def framerateCmd (hw : Hw) (s : ServState) (r : ℚ) : StepOut :=
  if r ≤ 0 ∨ 1000 / r > USER_TIMEOUT ∨ r > 120 then
    ⟨s, some ⟨'!', " FRAMERATE \"Frame Rate Specified is Invalid\""⟩, [], []⟩
  else if hw.serialOk = false then
    ⟨s, some ⟨'!', " FRAMERATE \"Unable to set frame rate in the camera\""⟩,
     statusWrites, []⟩
  else
    ⟨{ s with frame_rate := hw.frReadback },
     some ⟨'.', " FRAMERATE " ++ toString hw.frReadback⟩,
     statusWrites ++ frSetWrites r ++ frGetWrites, []⟩

/-- `STARTEXP` handler (line 2933): reset the optional tags to the fh null
sentinels, then store each supplied argument in turn.  Note the source
stores the `OBJMAG=` value into `equinox` (line 2980), so `objmag` keeps its
sentinel and a supplied magnitude overrides a supplied equinox. -/
def startexpCmd (s : ServState) (fn : String) (raArg decArg : Option String)
    (eqArg magArg : Option ℚ) : StepOut :=
  ⟨{ s with filename := fn,
            ra := raArg.getD "", dec := decArg.getD "",
            equinox := magArg.getD (eqArg.getD fh_fits_real_null),
            objmag := fh_fits_real_null,
            exp_on := true },
   some ⟨'.', " STARTEXP"⟩, [], []⟩

/-- Dispatch one parsed client request (`clientReceive`). -/
def applyCmd (hw : Hw) (s : ServState) : Cmd → StepOut
  | Cmd.video true => ⟨{ s with video_on := true }, some ⟨'.', " ON"⟩, [], []⟩
  | Cmd.video false => ⟨{ s with video_on := false }, some ⟨'.', " OFF"⟩, [], []⟩
  | Cmd.isu true =>
      let homed := if hw.isuCheckOk = false then false else hw.isuHomed
      if homed = false then
        -- homing worker spawned; reply immediately, `isu_on` is set by the
        -- detached thread later
        ⟨s, some ⟨'.', " ON"⟩, [], []⟩
      else if hw.isuEnableOk = false then
        ⟨s, some ⟨'!', " OFF"⟩, [], []⟩
      else
        ⟨{ s with isu_on := true }, some ⟨'.', " ON"⟩, [], []⟩
  | Cmd.isu false =>
      if hw.isuStopOk = false then
        ⟨s, some ⟨'!', " OFF"⟩, [], []⟩
      else
        ⟨{ s with isu_on := false }, some ⟨'.', " OFF"⟩, [], []⟩
  | Cmd.guide true => guideOnCmd hw s
  | Cmd.guide false => guideOffCmd hw s
  | Cmd.roi x y => roiCmd hw s x y
  | Cmd.nullPos x y =>
      if x < 0 ∨ x > (SIZE_X : ℚ) ∨ y < 0 ∨ y > (SIZE_Y : ℚ) then
        ⟨s, some ⟨'!', " NULL \"NULL position out of range\""⟩, [], []⟩
      else
        ⟨{ s with null_x := x, null_y := y }, some ⟨'.', " NULL"⟩, [], []⟩
  | Cmd.save n comment =>
      if n < 0 ∨ n > MAX_SAVE_COUNT then
        ⟨s, some ⟨'!', " SAVE \"Invalid Argument Specified\""⟩, [], []⟩
      else
        let s1 := { s with fits_comment := comment, frame_save_count := n,
                           frame_sequence := 0 }
        let s2 := if s1.frame_save_count = 0
                  then { s1 with fits_comment := "" } else s1
        ⟨s2, some ⟨'.', " SAVE"⟩, [], []⟩
  | Cmd.framerate r => framerateCmd hw s r
  | Cmd.startexp fn raArg decArg eqArg magArg =>
      startexpCmd s fn raArg decArg eqArg magArg
  | Cmd.endexp => ⟨{ s with exp_on := false }, some ⟨'.', " ENDEXP"⟩, [], []⟩
  | Cmd.shutdown => ⟨{ s with serv_done := true }, none, [], []⟩

/-! ## Image emission (`writeFITSImage`, lines 2430-2618)

Only the header keywords the claims mention are modelled; the remaining
keywords are timestamps, constants, or copies of state fields that no claim
constrains.  The fh library's null string sentinel (`fh_fits_string_null`)
is the empty string. -/

structure Header where
  etype : String
  imginfo : String
  seqnum : ℤ
  deriving DecidableEq

/-- One call of `writeFITSImage`: choose `ETYPE` from the *current*
`frame_sequence` (line 2476), emit `IMGINFO`, emit `SEQNUM` as the
pre-incremented counter (line 2490), then clear the save state once
`frame_sequence ≥ frame_save_count` and the comment is not the null string
(line 2576). -/
def writeHeader (s : ServState) : Header × ServState :=
  let etype := if s.frame_sequence > 0 then "GUIDE" else "ACQUIRE"
  let hdr : Header := ⟨etype, s.fits_comment, s.frame_sequence + 1⟩
  let s1 := { s with frame_sequence := s.frame_sequence + 1 }
  let s2 := if s1.fits_comment ≠ "" ∧ s1.frame_sequence ≥ s1.frame_save_count
            then { s1 with fits_comment := "", frame_save_count := 0,
                           frame_sequence := 0 }
            else s1
  (hdr, s2)

/-- Emit `k` consecutive images, collecting their headers. -/
def emitHeaders (s : ServState) : ℕ → List Header × ServState
  | 0 => ([], s)
  | k + 1 =>
      let (hdr, s1) := writeHeader s
      let (hdrs, s2) := emitHeaders s1 k
      (hdr :: hdrs, s2)

/-! ## Frame loop (`main`, lines 4155-4687)

One iteration of the infinite loop after the socket poll.  The acquired
image, the mpfit results, and the ISU fault flags come from the `FrameEnv`
oracle; the libisu unit conversion `arcsec_to_mrad` and calibration
`setup_to_true` are opaque collaborator functions and are parameters of the
environment. -/

structure FrameEnv where
  img : ℕ → ℕ
  mpfitP : ℚ × ℚ
  fwhmP : ℚ × ℚ
  checkOk : Bool
  xFault : Bool
  yFault : Bool
  a2m : ℚ × ℚ → ℚ × ℚ
  s2t : ℚ × ℚ → ℚ × ℚ

/-- The main-loop locals that persist across iterations
(`last_video_on_state`, `last_guide_on_state`). -/
structure LoopState where
  s : ServState
  lastVideo : Bool
  lastGuide : Bool
  deriving DecidableEq

/-- Result of one loop iteration: the next loop state (`none` when the
iteration calls `exit`), the 5-tuple handed to the detached
`set_analog_slope` worker if one was spawned, and the emitted header if an
image was written. -/
structure FrameOut where
  next : Option LoopState
  spawn : Option (ℚ × ℚ × ℚ × ℚ × ℚ)
  header : Option Header

/-- `pdv_get_width`: the camera readout width under the current ROI. -/
def camW (s : ServState) : ℤ := if s.cam_roi_enabled then s.cam_roi_w else SIZE_X

/-- `pdv_get_height`. -/
def camH (s : ServState) : ℤ := if s.cam_roi_enabled then s.cam_roi_h else SIZE_Y

/-- The guide-processing section of the loop body (lines 4283-4647) followed
by the image write (line 4662), for a state with `video_on` true. -/
def videoBody (hw : Hw) (env : FrameEnv) (l : LoopState) : FrameOut :=
  let s := l.s
  if s.guide_on = true then
    -- first frame of a guide session: FWHM measurement and ISU fault check
    let sA := { s with
                fwhm_x := if s.first_done_flag = 0 then env.fwhmP.1 else s.fwhm_x,
                fwhm_y := if s.first_done_flag = 0 then env.fwhmP.2 else s.fwhm_y }
    if s.first_done_flag = 0 ∧ env.checkOk = true ∧ env.xFault = true then
      ⟨none, none, none⟩
    else if s.first_done_flag = 0 ∧ env.checkOk = true ∧ env.yFault = true then
      ⟨none, none, none⟩
    else
      -- centroid, SExtractor +0.5 convention, offset from null in arcsec
      let c := calculateCentroidMPFIT env.img env.mpfitP
      let xc := c.1 + 1 / 2
      let yc := c.2 + 1 / 2
      let xoff := ((sA.guide_x0 : ℚ) + xc - sA.null_x) * PIXSCALE
      let yoff := ((sA.guide_y0 : ℚ) + yc - sA.null_y) * PIXSCALE
      let d := env.s2t (env.a2m (xoff, yoff))
      let sB := { sA with guide_xoff := xoff, guide_yoff := yoff,
                          isu_mrad_x_delta_setup := d.1,
                          isu_mrad_y_delta_setup := d.2 }
      if hw.anglesOk = false then ⟨none, none, none⟩
      else
        let sC := { sB with isu_mrad_x_status := hw.angles.1,
                            isu_mrad_y_status := hw.angles.2 }
        if sC.isu_on = true then
          if hw.spawnOk = false then ⟨none, none, none⟩
          else
            let rate : ℚ := if sC.frame_rate ≠ (0 : ℚ) then sC.frame_rate
                            else DEFAULT_FRAME_RATE
            let tup := (rate, sC.isu_mrad_x_status, sC.isu_mrad_y_status,
                        sC.isu_mrad_x_status - sC.isu_mrad_x_delta_setup,
                        sC.isu_mrad_y_status - sC.isu_mrad_y_delta_setup)
            let sD := { sC with first_done_flag := 1 }
            let (hdr, sE) := writeHeader sD
            ⟨some ⟨sE, l.lastVideo, true⟩, some tup, some hdr⟩
        else
          let sD := { sC with first_done_flag := 1 }
          let (hdr, sE) := writeHeader sD
          ⟨some ⟨sE, l.lastVideo, true⟩, none, some hdr⟩
  else
    let (l1 : LoopState) :=
      if l.lastGuide = true
      then ⟨{ s with first_done_flag := 0 }, l.lastVideo, false⟩
      else l
    let (hdr, sE) := writeHeader l1.s
    ⟨some ⟨sE, l1.lastVideo, l1.lastGuide⟩, none, some hdr⟩

/-- One full iteration of the `for (;;)` loop after `sockserv_run`: the
video-on rising edge (camera open, size read-back, buffering), the video
body, and the falling-edge bookkeeping. -/
def frameStep (hw : Hw) (env : FrameEnv) (l : LoopState) : FrameOut :=
  let s := l.s
  if l.lastVideo = false ∧ s.video_on = true then
    if hw.openOk = false then
      ⟨some ⟨{ s with video_on := false }, l.lastVideo, l.lastGuide⟩, none, none⟩
    else
      let s1 := { s with image_width := camW s, image_height := camH s }
      if s1.image_width ≤ 1 ∧ s1.image_height ≤ 1 then
        ⟨some ⟨{ s1 with video_on := false }, l.lastVideo, l.lastGuide⟩, none, none⟩
      else if hw.multibufOk = false then
        ⟨some ⟨{ s1 with video_on := false }, l.lastVideo, l.lastGuide⟩, none, none⟩
      else if hw.timeoutOk = false then
        ⟨some ⟨{ s1 with video_on := false }, l.lastVideo, l.lastGuide⟩, none, none⟩
      else
        videoBody hw env ⟨s1, true, l.lastGuide⟩
  else if s.video_on = true then
    videoBody hw env l
  else
    ⟨some ⟨s, false, l.lastGuide⟩, none, none⟩

/-! ## The size/ROI invariant of claim C2 and reachability -/

/-- The invariant asserted by the spec: subraster geometry whenever
`guide_on`, full-frame geometry with the ROI disabled otherwise. -/
def SizeInv (s : ServState) : Prop :=
  (s.guide_on = true →
     s.image_width = 32 ∧ s.image_height = 32 ∧
     s.cam_roi_x0 = s.guide_x0 ∧ s.cam_roi_y0 = s.guide_y0 ∧
     s.cam_roi_w = 32 ∧ s.cam_roi_h = 32 ∧ s.cam_roi_enabled = true) ∧
  (s.guide_on = false →
     s.image_width = 640 ∧ s.image_height = 512 ∧ s.cam_roi_enabled = false)

instance (s : ServState) : Decidable (SizeInv s) := by
  unfold SizeInv; infer_instance

/-- The configuration of the spec's cold-boot scenario
(`guideRasterX0=100, guideRasterY0=200, holeNullX=115.5, holeNullY=215.5`). -/
def conf0 : GuiderConf := ⟨100, 200, 231 / 2, 431 / 2⟩

/-- The loop state at the top of the first `for (;;)` iteration. -/
def loop0 : LoopState := ⟨initState conf0, false, false⟩

/-- States the process can be in at the top of a loop iteration: the initial
state, or the result of dispatching any command or running any loop
iteration (with arbitrary hardware outcomes and environments). -/
inductive Reachable : LoopState → Prop where
  | init : Reachable loop0
  | cmd (l : LoopState) (hw : Hw) (c : Cmd) :
      Reachable l → Reachable ⟨(applyCmd hw l.s c).st, l.lastVideo, l.lastGuide⟩
  | frame (l l' : LoopState) (hw : Hw) (env : FrameEnv) :
      Reachable l → (frameStep hw env l).next = some l' → Reachable l'

/-! ## Shared concrete inputs for witnesses and evaluations -/

/-- An idle full-frame state (after `VIDEO ON` has sized the sensor). -/
def sIdle : ServState :=
  { initState conf0 with image_width := 640, image_height := 512 }

/-- A 32×32 image that is zero except for a bright pixel in the far corner
(row 31, column 31, flat index 1023). -/
def img8 : ℕ → ℕ := fun k => if k = 1023 then 100 else 0

/-- Byte reassembly of the frame-rate count round-trips for 32-bit values. -/
theorem frBytes_reassemble (n : ℕ) (h : n < 2 ^ 32) :
    frReassemble (frBytes n) = n := by
  unfold frReassemble frBytes
  simp only [List.foldl_cons, List.foldl_nil]
  omega

/-- C5.  The centre-of-mass seed of `calculateCentroid` on a 32×32
unsigned-16 subraster: with `m` the pixel-wise median, the median-subtracted
clamped moments divided by their sum, or the geometric centre `(16, 16)`
when the clamped sum vanishes. -/
theorem C5_centroid_seed (img : ℕ → ℕ) (_hpix : ∀ k < 1024, img k < 65536) :
    calculateCentroid img 32 32 =
      (let m := GetMedian (imgList img 1024)
       let S := ∑ i ∈ Finset.range 32, ∑ j ∈ Finset.range 32,
                  clampedVal img 32 m i j
       if 0 < S then
         ((∑ i ∈ Finset.range 32, ∑ j ∈ Finset.range 32,
             (j : ℚ) * clampedVal img 32 m i j) / S,
          (∑ i ∈ Finset.range 32, ∑ j ∈ Finset.range 32,
             (i : ℚ) * clampedVal img 32 m i j) / S)
       else (16, 16)) := by
  have h := calculateCentroid_eq_moments img 32 32
  norm_num at h
  convert h using 2

/-- Witness for C5 at the all-zero subraster. -/
theorem C5_centroid_seed_witness :
    (∀ k < 1024, (fun _ : ℕ => 0) k < 65536) ∧
    calculateCentroid (fun _ => 0) 32 32 =
      (let m := GetMedian (imgList (fun _ => 0) 1024)
       let S := ∑ i ∈ Finset.range 32, ∑ j ∈ Finset.range 32,
                  clampedVal (fun _ => 0) 32 m i j
       if 0 < S then
         ((∑ i ∈ Finset.range 32, ∑ j ∈ Finset.range 32,
             (j : ℚ) * clampedVal (fun _ => 0) 32 m i j) / S,
          (∑ i ∈ Finset.range 32, ∑ j ∈ Finset.range 32,
             (i : ℚ) * clampedVal (fun _ => 0) 32 m i j) / S)
       else (16, 16)) :=
  ⟨fun _ _ => by norm_num, C5_centroid_seed (fun _ => 0) (fun _ _ => by norm_num)⟩

/-- C3, counterexample.  At the in-range rate `r = 403/8 = 50.375` the count
written by `setGuiderFrameRate` is `⌊4·10⁹/⌊r·100⌋⌋ = 794123`, not the
claimed `⌊4·10⁹/(r·100)⌋ = 794044`: the C cast truncates `r·100` before the
division. -/
theorem C3_counterexample :
    (0 : ℚ) < 403 / 8 ∧ (403 : ℚ) / 8 ≤ 120 ∧
    frEncodeCount (403 / 8) = 794123 ∧
    ⌊(4000000000 : ℚ) / ((403 : ℚ) / 8 * 100)⌋ = 794044 ∧
    (794123 : ℤ) ≠ 794044 := by
  refine ⟨by norm_num, by norm_num, ?_, ?_, by norm_num⟩
  · with_unfolding_all decide
  · with_unfolding_all decide

/-- C3, amended.  For every rate `r` with `1 ≤ ⌊r·100⌋` and `r ≤ 120`: the
count written to the camera is `⌊4·10⁹ / ⌊r·100⌋⌋` (the rate is truncated to
an integral number of hundredths first); it is positive and fits in the four
registers, whose bytes reassemble to it MSB-first; and the decoded read-back
equals `4·10⁷ / count`. -/
theorem C3_encode_decode (r : ℚ) (h1 : 1 ≤ ⌊r * 100⌋) (h2 : r ≤ 120) :
    frEncodeCount r = ⌊(4000000000 : ℚ) / ((⌊r * 100⌋ : ℤ) : ℚ)⌋ ∧
    0 < frEncodeCount r ∧
    frReassemble (frBytes (frEncodeCount r).toNat) = (frEncodeCount r).toNat ∧
    frDecode (frEncodeCount r).toNat =
      (40000000 : ℚ) / ((frEncodeCount r).toNat : ℚ) := by
  have hkpos : (0 : ℚ) < ((⌊r * 100⌋ : ℤ) : ℚ) := by
    have : (1 : ℚ) ≤ ((⌊r * 100⌋ : ℤ) : ℚ) := by exact_mod_cast h1
    linarith
  have hkle : ((⌊r * 100⌋ : ℤ) : ℚ) ≤ 4000000000 := by
    have hfl : ((⌊r * 100⌋ : ℤ) : ℚ) ≤ r * 100 := Int.floor_le _
    have : r * 100 ≤ 12000 := by linarith
    linarith
  have hpos : 0 < frEncodeCount r := by
    unfold frEncodeCount
    rw [Int.lt_iff_add_one_le, zero_add, Int.le_floor]
    rw [show ((1 : ℤ) : ℚ) = 1 by norm_num, one_le_div hkpos]
    exact hkle
  have hle : frEncodeCount r ≤ 4000000000 := by
    unfold frEncodeCount
    have hdiv : (4000000000 : ℚ) / ((⌊r * 100⌋ : ℤ) : ℚ) ≤ 4000000000 := by
      apply div_le_self (by norm_num)
      exact_mod_cast h1
    calc ⌊(4000000000 : ℚ) / ((⌊r * 100⌋ : ℤ) : ℚ)⌋
        ≤ ⌊(4000000000 : ℚ)⌋ := Int.floor_le_floor hdiv
      _ = 4000000000 := by norm_num
  have hne : (frEncodeCount r).toNat ≠ 0 := by omega
  refine ⟨rfl, hpos, ?_, ?_⟩
  · exact frBytes_reassemble _ (by omega)
  · simp [frDecode, hne]

/-- Witness for C3 at `r = 50`. -/
theorem C3_encode_decode_witness :
    (1 ≤ ⌊(50 : ℚ) * 100⌋) ∧ ((50 : ℚ) ≤ 120) ∧
    (frEncodeCount 50 = ⌊(4000000000 : ℚ) / ((⌊(50 : ℚ) * 100⌋ : ℤ) : ℚ)⌋ ∧
     0 < frEncodeCount 50 ∧
     frReassemble (frBytes (frEncodeCount 50).toNat) = (frEncodeCount 50).toNat ∧
     frDecode (frEncodeCount 50).toNat =
       (40000000 : ℚ) / ((frEncodeCount 50).toNat : ℚ)) :=
  ⟨by with_unfolding_all decide, by norm_num,
   C3_encode_decode 50 (by with_unfolding_all decide) (by norm_num)⟩

/-- C4.  A `FRAMERATE` request whose argument is out of range (nonpositive,
above 120 Hz, or with a frame period beyond the 20000 ms user timeout) is
rejected with `! FRAMERATE "Frame Rate Specified is Invalid"`, no serial
byte reaches the camera, no ROI call is issued, and the state (hence the
stored `frame_rate`) is unchanged. -/
theorem C4_framerate_invalid (hw : Hw) (s : ServState) (r : ℚ)
    (h : r ≤ 0 ∨ r > 120 ∨ 1000 / r > 20000) :
    applyCmd hw s (Cmd.framerate r) =
      ⟨s, some ⟨'!', " FRAMERATE \"Frame Rate Specified is Invalid\""⟩, [], []⟩ := by
  have hcond : r ≤ 0 ∨ 1000 / r > USER_TIMEOUT ∨ r > 120 := by
    unfold USER_TIMEOUT
    tauto
  simp only [applyCmd, framerateCmd, if_pos hcond]

/-- Witness for C4 at `FRAMERATE 200`. -/
theorem C4_framerate_invalid_witness :
    ((200 : ℚ) ≤ 0 ∨ (200 : ℚ) > 120 ∨ 1000 / (200 : ℚ) > 20000) ∧
    applyCmd hwOK sIdle (Cmd.framerate 200) =
      ⟨sIdle, some ⟨'!', " FRAMERATE \"Frame Rate Specified is Invalid\""⟩, [], []⟩ :=
  ⟨Or.inr (Or.inl (by norm_num)),
   C4_framerate_invalid hwOK sIdle 200 (Or.inr (Or.inl (by norm_num)))⟩

set_option maxRecDepth 10000 in
/-- C6.  The configuration file of the claim — `holeNullY = 600`, outside
`[0, 512]`, with the other three keys valid — is *accepted* by
`loadGuiderConfiguration`: line 3713 compares `null_y` against `SIZE_X`
(640) instead of `SIZE_Y` (512).  The other three ranges are enforced as
claimed, and `holeNullY` only fails beyond 640. -/
theorem C6_nully_range_eval :
    loadGuiderConfiguration
        [ConfLine.rasterX0 100, ConfLine.rasterY0 200,
         ConfLine.nullX (231 / 2), ConfLine.nullY 600]
      = some ⟨100, 200, 231 / 2, 600⟩ ∧
    loadGuiderConfiguration
        [ConfLine.rasterX0 100, ConfLine.rasterY0 200,
         ConfLine.nullX (231 / 2), ConfLine.nullY 700] = none ∧
    loadGuiderConfiguration
        [ConfLine.rasterX0 609, ConfLine.rasterY0 200,
         ConfLine.nullX (231 / 2), ConfLine.nullY 100] = none ∧
    loadGuiderConfiguration
        [ConfLine.rasterX0 100, ConfLine.rasterY0 481,
         ConfLine.nullX (231 / 2), ConfLine.nullY 100] = none ∧
    loadGuiderConfiguration
        [ConfLine.rasterX0 100, ConfLine.rasterY0 200,
         ConfLine.nullX 641, ConfLine.nullY 100] = none := by
  with_unfolding_all decide

set_option maxRecDepth 10000 in
/-- C1.  After arming `SAVE 2 "c"`, the three headers emitted next are
`(ACQUIRE, "c", 1)`, `(GUIDE, "c", 2)`, `(ACQUIRE, "", 1)`: the first saved
frame carries `ETYPE="ACQUIRE"`, because `writeFITSImage` tests
`frame_sequence > 0` (line 2476) *before* the `++frame_sequence` that
produces `SEQNUM` (line 2490), while the claim requires `ETYPE="GUIDE"` on
all `n` saved frames. -/
theorem C1_save_sequence_eval :
    (emitHeaders ((applyCmd hwOK (initState conf0) (Cmd.save 2 "c")).st) 3).1
      = [⟨"ACQUIRE", "c", 1⟩, ⟨"GUIDE", "c", 2⟩, ⟨"ACQUIRE", "", 1⟩] := by
  with_unfolding_all decide

/-- Does the reply line echo the keyword of the received command after the
status character? -/
def echoesName (c : Cmd) (r : Reply) : Bool :=
  (" " ++ cmdName c).data.isPrefixOf r.rest.data

/-- C7, counterexample.  A successful `VIDEO ON` replies `". ON"` (line
3175 prints only `"%c ON"`): the echoed text does not contain the received
command name `VIDEO`. -/
theorem C7_counterexample :
    (applyCmd hwOK sIdle (Cmd.video true)).reply = some ⟨'.', " ON"⟩ ∧
    echoesName (Cmd.video true) ⟨'.', " ON"⟩ = false := by
  constructor
  · with_unfolding_all decide
  · with_unfolding_all decide

/-- C7, amended.  Every reply the dispatcher produces is one line whose
leading character is `'.'` (pass) or `'!'` (fail); however the `VIDEO` and
`ISU` handlers echo only `ON`/`OFF` without the command name, and a
successful `ROI x y` echoes `NULL` (line 3567).  The remaining handlers
echo their own keyword on success. -/
theorem C7_reply_shape (hw : Hw) (s : ServState) (c : Cmd) (r : Reply)
    (hr : (applyCmd hw s c).reply = some r) :
    (r.stat = '.' ∨ r.stat = '!') ∧
    (c = Cmd.video true → r = ⟨'.', " ON"⟩) ∧
    (c = Cmd.video false → r = ⟨'.', " OFF"⟩) ∧
    (∀ x y, c = Cmd.roi x y → r.stat = '.' → r.rest = " NULL") ∧
    (∀ b, c = Cmd.guide b → r.stat = '.' →
       r.rest = (if b then " GUIDE ON" else " GUIDE OFF")) ∧
    (∀ n cm, c = Cmd.save n cm → r.stat = '.' → r.rest = " SAVE") ∧
    (∀ x y, c = Cmd.nullPos x y → r.stat = '.' → r.rest = " NULL") ∧
    (∀ q, c = Cmd.framerate q → r.stat = '.' →
       r.rest = " FRAMERATE " ++ toString hw.frReadback) := by
  cases c with
  | video b =>
      cases b <;> simp only [applyCmd] at hr <;>
        (injection hr with hr; subst hr; simp)
  | isu b =>
      cases b <;> simp only [applyCmd] at hr <;> split_ifs at hr <;>
        (injection hr with hr; subst hr; simp)
  | guide b =>
      cases b <;>
        simp only [applyCmd, guideOnCmd, guideOffCmd] at hr <;>
        split_ifs at hr <;>
        (injection hr with hr; subst hr; simp)
  | roi x y =>
      simp only [applyCmd, roiCmd] at hr
      split_ifs at hr <;> (injection hr with hr; subst hr; simp)
  | nullPos x y =>
      simp only [applyCmd] at hr
      split_ifs at hr <;> (injection hr with hr; subst hr; simp)
  | save n cm =>
      simp only [applyCmd] at hr
      split_ifs at hr <;> (injection hr with hr; subst hr; simp)
  | framerate q =>
      simp only [applyCmd, framerateCmd] at hr
      split_ifs at hr <;> (injection hr with hr; subst hr; simp)
  | startexp fn raArg decArg eqArg magArg =>
      simp only [applyCmd, startexpCmd] at hr
      injection hr with hr; subst hr; simp
  | endexp =>
      simp only [applyCmd] at hr
      injection hr with hr; subst hr; simp
  | shutdown =>
      simp only [applyCmd] at hr
      exact absurd hr (by simp)

/-- Witness for C7 at a concrete successful command. -/
theorem C7_reply_shape_witness :
    (applyCmd hwOK sIdle (Cmd.video true)).reply = some ⟨'.', " ON"⟩ ∧
    (Reply.stat ⟨'.', " ON"⟩ = '.' ∨ Reply.stat ⟨'.', " ON"⟩ = '!') :=
  ⟨by with_unfolding_all decide,
   (C7_reply_shape hwOK sIdle (Cmd.video true) ⟨'.', " ON"⟩
      (by with_unfolding_all decide)).1⟩

/-- C9.  A valid `ROI x y` received while not in subraster mode
(`image_width ≠ 32`) updates exactly `guide_x0` and `guide_y0`, issues no
camera ROI call and no serial write, and replies with a pass line; and the
stored origin is the one a subsequent successful `GUIDE ON` programs into
the camera (together with the enable call). -/
theorem C9_roi_deferred (hw : Hw) (s : ServState) (x y : ℤ)
    (hx0 : 0 ≤ x) (hx1 : x ≤ 608) (hy0 : 0 ≤ y) (hy1 : y ≤ 480)
    (hwidth : s.image_width ≠ 32) :
    applyCmd hw s (Cmd.roi x y) =
      ⟨{ s with guide_x0 := x, guide_y0 := y }, some ⟨'.', " NULL"⟩, [], []⟩ ∧
    (∀ t : ServState, hw.setRoiOk = true → hw.enableRoiOk = true →
       (applyCmd hw t (Cmd.guide true)).st.cam_roi_x0 = t.guide_x0 ∧
       (applyCmd hw t (Cmd.guide true)).st.cam_roi_y0 = t.guide_y0 ∧
       (applyCmd hw t (Cmd.guide true)).st.cam_roi_w = 32 ∧
       (applyCmd hw t (Cmd.guide true)).st.cam_roi_h = 32 ∧
       (applyCmd hw t (Cmd.guide true)).st.cam_roi_enabled = true ∧
       (applyCmd hw t (Cmd.guide true)).camOps =
         [CamOp.setRoi t.guide_x0 32 t.guide_y0 32, CamOp.enableRoi 1]) := by
  constructor
  · have hrange : ¬(x < 0 ∨ x > SIZE_X - GUIDE_SIZE_X ∨
                    y < 0 ∨ y > SIZE_Y - GUIDE_SIZE_Y) := by
      unfold SIZE_X SIZE_Y GUIDE_SIZE_X GUIDE_SIZE_Y
      push_neg
      omega
    have hsub : ¬(({ s with guide_x0 := x, guide_y0 := y } :
         ServState).image_width = GUIDE_SIZE_X ∧
         ({ s with guide_x0 := x, guide_y0 := y } :
         ServState).image_width = GUIDE_SIZE_Y) := by
      unfold GUIDE_SIZE_X GUIDE_SIZE_Y
      simp only [not_and]
      intro hcontra
      exact absurd hcontra hwidth
    simp only [applyCmd, roiCmd, if_neg hrange, if_neg hsub]
  · intro t hset hen
    simp [applyCmd, guideOnCmd, hset, hen, GUIDE_SIZE_X, GUIDE_SIZE_Y]

/-- Witness for C9: `ROI 10 20` in the idle 640×512 state. -/
theorem C9_roi_deferred_witness :
    ((0 : ℤ) ≤ 10 ∧ (10 : ℤ) ≤ 608 ∧ (0 : ℤ) ≤ 20 ∧ (20 : ℤ) ≤ 480 ∧
     sIdle.image_width ≠ 32) ∧
    applyCmd hwOK sIdle (Cmd.roi 10 20) =
      ⟨{ sIdle with guide_x0 := 10, guide_y0 := 20 }, some ⟨'.', " NULL"⟩, [], []⟩ :=
  ⟨⟨by norm_num, by norm_num, by norm_num, by norm_num,
    by with_unfolding_all decide⟩,
   (C9_roi_deferred hwOK sIdle 10 20 (by norm_num) (by norm_num) (by norm_num)
      (by norm_num) (by with_unfolding_all decide)).1⟩

/-- `writeFITSImage` only mutates the save-protocol fields
(`fits_comment`, `frame_save_count`, `frame_sequence`). -/
theorem writeHeader_snd (s : ServState) :
    (writeHeader s).2 =
      { s with
        fits_comment :=
          if s.fits_comment ≠ "" ∧ s.frame_sequence + 1 ≥ s.frame_save_count
          then "" else s.fits_comment,
        frame_save_count :=
          if s.fits_comment ≠ "" ∧ s.frame_sequence + 1 ≥ s.frame_save_count
          then 0 else s.frame_save_count,
        frame_sequence :=
          if s.fits_comment ≠ "" ∧ s.frame_sequence + 1 ≥ s.frame_save_count
          then 0 else s.frame_sequence + 1 } := by
  unfold writeHeader
  by_cases h : s.fits_comment ≠ "" ∧ s.frame_sequence + 1 ≥ s.frame_save_count
  · simp [h]
  · simp [h]

/-- C10.  Whenever a guiding frame is processed with `isu_on` set (and the
iteration does not abort on an ISU fault or failed angle read), the frame
loop spawns the worker with exactly the 5-tuple
`(rate, last_x, last_y, last_x − delta_x, last_y − delta_y)` built from the
just-recorded ISU status and delta, where `rate` is the stored `frame_rate`
when nonzero and the 50 Hz default otherwise. -/
theorem C10_isu_spawn_tuple (hw : Hw) (env : FrameEnv) (l : LoopState)
    (hlv : l.lastVideo = true) (hv : l.s.video_on = true)
    (hg : l.s.guide_on = true) (hi : l.s.isu_on = true)
    (hxf : env.xFault = false) (hyf : env.yFault = false)
    (ha : hw.anglesOk = true) (hsp : hw.spawnOk = true) :
    ∃ l', (frameStep hw env l).next = some l' ∧
      l'.s.isu_mrad_x_status = hw.angles.1 ∧
      l'.s.isu_mrad_y_status = hw.angles.2 ∧
      (frameStep hw env l).spawn = some
        ((if l.s.frame_rate ≠ (0 : ℚ) then l.s.frame_rate else DEFAULT_FRAME_RATE),
         l'.s.isu_mrad_x_status, l'.s.isu_mrad_y_status,
         l'.s.isu_mrad_x_status - l'.s.isu_mrad_x_delta_setup,
         l'.s.isu_mrad_y_status - l'.s.isu_mrad_y_delta_setup) := by
  have hstep : frameStep hw env l = videoBody hw env l := by
    unfold frameStep
    rw [if_neg (by simp [hlv]), if_pos hv]
  rw [hstep]
  unfold videoBody
  rw [if_pos hg, if_neg (by simp [hxf]), if_neg (by simp [hyf]),
      if_neg (by simp [ha])]
  simp only [hi, if_pos, writeHeader_snd]
  rw [if_neg (by simp [hsp])]
  refine ⟨_, rfl, ?_, ?_, ?_⟩ <;> simp

/-- Witness for C10 at a concrete guiding state and identity transforms. -/
theorem C10_isu_spawn_tuple_witness :
    (let l : LoopState :=
       ⟨{ sIdle with video_on := true, guide_on := true, isu_on := true,
                      image_width := 32, image_height := 32,
                      first_done_flag := 1 }, true, true⟩
     let env : FrameEnv :=
       ⟨img8, (0, 0), (5 / 2, 5 / 2), true, false, false, id, id⟩
     ∃ l', (frameStep hwOK env l).next = some l' ∧
       l'.s.isu_mrad_x_status = hwOK.angles.1 ∧
       l'.s.isu_mrad_y_status = hwOK.angles.2 ∧
       (frameStep hwOK env l).spawn = some
         ((if l.s.frame_rate ≠ (0 : ℚ) then l.s.frame_rate else DEFAULT_FRAME_RATE),
          l'.s.isu_mrad_x_status, l'.s.isu_mrad_y_status,
          l'.s.isu_mrad_x_status - l'.s.isu_mrad_x_delta_setup,
          l'.s.isu_mrad_y_status - l'.s.isu_mrad_y_delta_setup)) :=
  C10_isu_spawn_tuple hwOK
    ⟨img8, (0, 0), (5 / 2, 5 / 2), true, false, false, id, id⟩
    ⟨{ sIdle with video_on := true, guide_on := true, isu_on := true,
                   image_width := 32, image_height := 32,
                   first_done_flag := 1 }, true, true⟩
    rfl rfl rfl rfl rfl rfl rfl rfl

set_option maxRecDepth 100000 in
/-- C8.  On the image `img8` (bright pixel at row 31, column 31) the
centre-of-mass seed is `(31, 31)`, the extraction window becomes
`fpix = (23, 23)`, `lpix = (38, 38)` — the clamp never fires because the
guard tests `xest - 8 > 32` instead of `xest + 7 > 31` — and the copy loop
of `calculateCentroidMPFIT`/`calculatePointFWHM` reads `image[j*32+i]` at
`(i, j) = (38, 38)`, far outside `0 ≤ i, j < 32`; a guarded access would
take its error branch. -/
theorem C8_subraster_oob_eval :
    calculateCentroid img8 32 32 = (31, 31) ∧
    mpfitWindow 31 31 = ((23, 23), (38, 38)) ∧
    ((38 : ℤ), (38 : ℤ)) ∈ mpfitAccesses img8 ∧
    mpfitAccessesOk img8 = false := by
  refine ⟨?_, ?_, ?_, ?_⟩
  · with_unfolding_all decide
  · with_unfolding_all decide
  · with_unfolding_all decide
  · with_unfolding_all decide

/-- Resizing to the camera's current readout dimensions preserves the
size/ROI invariant (the `pdv_get_width`/`pdv_get_height` read-back of the
video-on rising edge). -/
theorem sizeInv_camSize (s : ServState) (h : SizeInv s) :
    SizeInv { s with image_width := camW s, image_height := camH s } := by
  obtain ⟨h1, h2⟩ := h
  cases hg : s.guide_on with
  | true =>
      obtain ⟨hw', hh, hx, hy, hrw, hrh, hen⟩ := h1 hg
      refine ⟨fun _ => ?_, fun hf => ?_⟩
      · simp [camW, camH, hen, hrw, hrh, hx, hy]
      · simp [hg] at hf
  | false =>
      obtain ⟨hw', hh, hen⟩ := h2 hg
      refine ⟨fun ht => ?_, fun _ => ?_⟩
      · simp [hg] at ht
      · simp [camW, camH, hen, SIZE_X, SIZE_Y]

theorem FrameOut_next_mk (a : Option LoopState) (b : Option (ℚ × ℚ × ℚ × ℚ × ℚ))
    (c : Option Header) : (FrameOut.mk a b c).next = a := rfl

/-- The loop body with video on preserves the size/ROI invariant: the guide
section touches only centroid/ISU bookkeeping and `writeFITSImage` only the
save-protocol counters. -/
theorem videoBody_inv (hw : Hw) (env : FrameEnv) (l l' : LoopState)
    (h : SizeInv l.s) (hnext : (videoBody hw env l).next = some l') :
    SizeInv l'.s := by
  obtain ⟨h1, h2⟩ := h
  simp only [videoBody] at hnext
  by_cases hg : l.s.guide_on = true
  · rw [if_pos hg] at hnext
    split_ifs at hnext <;> rw [FrameOut_next_mk] at hnext <;>
      (rw [Option.some.injEq] at hnext
       subst hnext
       refine ⟨fun _ => ?_, fun hf => ?_⟩
       · simpa [writeHeader_snd] using h1 hg
       · simp [writeHeader_snd] at hf
         rw [hg] at hf
         exact absurd hf (by simp))
  · rw [if_neg hg] at hnext
    have hgf : l.s.guide_on = false := by
      cases hb : l.s.guide_on
      · rfl
      · exact absurd hb hg
    by_cases hlg : l.lastGuide = true <;>
      [rw [if_pos hlg] at hnext; rw [if_neg hlg] at hnext] <;>
      rw [FrameOut_next_mk, Option.some.injEq] at hnext <;>
      subst hnext <;>
      refine ⟨fun ht => ?_, fun _ => ?_⟩
    · simp [writeHeader_snd] at ht
      rw [hgf] at ht
      exact absurd ht (by simp)
    · simpa [writeHeader_snd] using h2 hgf
    · simp [writeHeader_snd] at ht
      rw [hgf] at ht
      exact absurd ht (by simp)
    · simpa [writeHeader_snd] using h2 hgf

/-- One frame-loop iteration preserves the size/ROI invariant, for any
hardware outcome and environment. -/
theorem frameStep_inv (hw : Hw) (env : FrameEnv) (l l' : LoopState)
    (h : SizeInv l.s) (hnext : (frameStep hw env l).next = some l') :
    SizeInv l'.s := by
  simp only [frameStep] at hnext
  split_ifs at hnext with hrise hopen hsize hbuf htmo hvid
  · -- rising edge, open failed
    simp only [Option.some.injEq] at hnext
    subst hnext
    exact ⟨fun ht => h.1 ht, fun hf => h.2 hf⟩
  · -- rising edge, size check failed
    simp only [Option.some.injEq] at hnext
    subst hnext
    have h1 := sizeInv_camSize l.s h
    exact ⟨fun ht => h1.1 ht, fun hf => h1.2 hf⟩
  · -- rising edge, multibuf failed
    simp only [Option.some.injEq] at hnext
    subst hnext
    have h1 := sizeInv_camSize l.s h
    exact ⟨fun ht => h1.1 ht, fun hf => h1.2 hf⟩
  · -- rising edge, set_timeout failed
    simp only [Option.some.injEq] at hnext
    subst hnext
    have h1 := sizeInv_camSize l.s h
    exact ⟨fun ht => h1.1 ht, fun hf => h1.2 hf⟩
  · -- rising edge succeeded, body runs on the resized state
    exact videoBody_inv hw env _ l' (sizeInv_camSize l.s h) hnext
  · -- steady video
    exact videoBody_inv hw env l l' h hnext
  · -- video off
    simp only [Option.some.injEq] at hnext
    subst hnext
    exact h

/-- A successful `GUIDE ON` establishes the subraster half of the size/ROI
invariant outright. -/
theorem guideOn_establish (s : ServState) :
    SizeInv (applyCmd hwOK s (Cmd.guide true)).st := by
  simp only [applyCmd, guideOnCmd]
  rw [if_neg (by decide : ¬(hwOK.setRoiOk = false)),
      if_neg (by decide : ¬(hwOK.enableRoiOk = false))]
  refine ⟨fun _ => ?_, fun hf => ?_⟩
  · exact ⟨rfl, rfl, rfl, rfl, rfl, rfl, rfl⟩
  · exact absurd hf (by simp)

/-- A successful `GUIDE OFF` establishes the full-frame half of the
size/ROI invariant outright. -/
theorem guideOff_establish (s : ServState) :
    SizeInv (applyCmd hwOK s (Cmd.guide false)).st := by
  simp only [applyCmd, guideOffCmd]
  rw [if_neg (by decide : ¬(hwOK.enableRoiOk = false))]
  refine ⟨fun ht => ?_, fun _ => ?_⟩
  · exact absurd ht (by simp)
  · exact ⟨rfl, rfl, rfl⟩

/-- Dispatching any modelled command with all camera operations succeeding
preserves the size/ROI invariant. -/
theorem applyCmd_inv (s : ServState) (c : Cmd) (h : SizeInv s) :
    SizeInv (applyCmd hwOK s c).st := by
  obtain ⟨h1, h2⟩ := h
  cases c with
  | video b => cases b <;> exact ⟨h1, h2⟩
  | isu b =>
      cases b <;> simp only [applyCmd] <;> split_ifs <;> exact ⟨h1, h2⟩
  | guide b =>
      cases b
      · exact guideOff_establish s
      · exact guideOn_establish s
  | roi x y =>
      simp only [applyCmd, roiCmd]
      split_ifs with hr hsub hsf hef
      · exact ⟨h1, h2⟩
      · exact absurd hsf (by decide)
      · exact absurd hef (by decide)
      · -- subraster branch with both camera calls succeeding
        have hw32 : s.image_width = 32 := by
          have := hsub.1
          simpa [GUIDE_SIZE_X] using this
        cases hb : s.guide_on with
        | true =>
            obtain ⟨_, hh, _, _, _, _, _⟩ := h1 hb
            refine ⟨fun _ => ?_, fun hf => ?_⟩
            · exact ⟨hw32, hh, rfl, rfl, rfl, rfl, rfl⟩
            · simp [hb] at hf
        | false =>
            obtain ⟨hwid, _, _⟩ := h2 hb
            rw [hwid] at hw32
            exact absurd hw32 (by norm_num)
      · -- full-frame branch: only the stored origin changes
        cases hb : s.guide_on with
        | true =>
            obtain ⟨hwid, _, _, _, _, _, _⟩ := h1 hb
            exact absurd ⟨by simpa [GUIDE_SIZE_X] using hwid,
                          by simpa [GUIDE_SIZE_Y] using hwid⟩ hsub
        | false =>
            obtain ⟨hwid, hh, hen⟩ := h2 hb
            refine ⟨fun ht => ?_, fun _ => ?_⟩
            · simp [hb] at ht
            · exact ⟨hwid, hh, hen⟩
  | nullPos x y =>
      simp only [applyCmd]
      split_ifs <;> exact ⟨h1, h2⟩
  | save n cm =>
      simp only [applyCmd]
      split_ifs <;> exact ⟨h1, h2⟩
  | framerate r =>
      simp only [applyCmd, framerateCmd]
      split_ifs <;> exact ⟨h1, h2⟩
  | startexp fn raArg decArg eqArg magArg => exact ⟨h1, h2⟩
  | endexp => exact ⟨h1, h2⟩
  | shutdown => exact ⟨h1, h2⟩

/-- C2, counterexample.  Two concrete violations: (1) the claim's
full-frame clause — every reachable state with `guide_on` false has a
640×512 image and a disabled ROI — fails at the initial state itself, where
`image_width` is 0 until the first video-on rising edge reads the sensor
size; (2) the invariant is not preserved by every command: a `GUIDE OFF`
whose `pdv_enable_roi` call fails returns after having already restored the
640×512 size fields but with `guide_on` still true. -/
theorem C2_counterexample :
    (¬ (∀ l : LoopState, Reachable l → SizeInv l.s)) ∧
    SizeInv (applyCmd hwOK sIdle (Cmd.guide true)).st ∧
    ¬ SizeInv (applyCmd { hwOK with enableRoiOk := false }
        (applyCmd hwOK sIdle (Cmd.guide true)).st (Cmd.guide false)).st := by
  refine ⟨fun hall => ?_, ?_, ?_⟩
  · have h0 := (hall loop0 Reachable.init).2 (by with_unfolding_all decide)
    exact absurd h0.1 (by with_unfolding_all decide)
  · with_unfolding_all decide
  · with_unfolding_all decide

/-- C2, amended.  With every camera operation succeeding, a `GUIDE ON`
(resp. `GUIDE OFF`) establishes the subraster (resp. full-frame) size/ROI
invariant, every modelled command preserves it, and every frame-loop
iteration (under any hardware outcome) preserves it; the invariant simply
does not hold before the first video-on. -/
theorem C2_size_invariant :
    (∀ s : ServState,
       SizeInv (applyCmd hwOK s (Cmd.guide true)).st ∧
       SizeInv (applyCmd hwOK s (Cmd.guide false)).st) ∧
    (∀ (s : ServState) (c : Cmd), SizeInv s → SizeInv (applyCmd hwOK s c).st) ∧
    (∀ (hw : Hw) (env : FrameEnv) (l l' : LoopState),
       SizeInv l.s → (frameStep hw env l).next = some l' → SizeInv l'.s) :=
  ⟨fun s => ⟨guideOn_establish s, guideOff_establish s⟩,
   fun s c h => applyCmd_inv s c h,
   fun hw env l l' h hnext => frameStep_inv hw env l l' h hnext⟩

/-- Witness for C2: the invariant holds after `GUIDE ON` from the idle
state and is preserved by a concrete command. -/
theorem C2_size_invariant_witness :
    SizeInv sIdle ∧ SizeInv (applyCmd hwOK sIdle (Cmd.video true)).st :=
  ⟨by with_unfolding_all decide,
   C2_size_invariant.2.1 sIdle (Cmd.video true) (by with_unfolding_all decide)⟩

end RaptorServ
